import Mathlib

set_option maxRecDepth 10000

/-!
Verification development for the panorama tile downloader
(download_and_convert.py).  The stateful, network facing source code is
shallowly embedded: the remote server and the image decoder are modelled by a
record of pure functions (Net), the local filesystem by a map from path
strings to file contents (FS), and each source function becomes a pure Lean
function threading an FS value.  Exceptions raised by the source (PIL decode
failures, FileNotFoundError in merge_to_equirect) become Except values.
Numerical resampling (LANCZOS, bilinear) is abstracted: an image is a term
recording which crop and resize operations produced it, with exact dimension
accounting; pixel contents are outside the scope of the claims.
-/

/-- Source constant TILE_SIZE = 512. -/
def TILE_SIZE : Nat := 512

/-- Source constant FACES = ["f", "b", "l", "r", "u", "d"]. -/
def FACES : List String := ["f", "b", "l", "r", "u", "d"]

/-- Source constant OUT_DIR = "panoramas". -/
def OUT_DIR : String := "panoramas"

/-- Source constant TEMP_DIR = "temp_tiles". -/
def TEMP_DIR : String := "temp_tiles"

/-- A decoded raster image.  The constructors record how the image was
produced: decoded from downloaded bytes (with its decoded width and height),
decoded from a saved face composite, or obtained by the PIL crop and resize
operations used in get_tile_with_fallback.  Resampling modes are abstracted;
only the geometry is tracked. -/
inductive Img : Type where
  | decoded (content w h : Nat)
  | faceImg (w h : Nat)
  | cropped (src : Img) (l t r b : Nat)
  | resized (src : Img) (w h : Nat)
deriving DecidableEq, Repr

/-- PIL Image.crop with box (l, t, r, b). -/
def Img.crop (src : Img) (l t r b : Nat) : Img := .cropped src l t r b

/-- PIL Image.resize to (w, h); the LANCZOS resampling kernel is abstracted. -/
def Img.resize (src : Img) (w h : Nat) : Img := .resized src w h

/-- Width of an image, following PIL semantics: a crop box (l, t, r, b)
yields width r - l, a resize to (w, h) yields width w. -/
def Img.width : Img → Nat
  | .decoded _ w _ => w
  | .faceImg w _ => w
  | .cropped _ l _ r _ => r - l
  | .resized _ w _ => w

/-- Height of an image, following PIL semantics. -/
def Img.height : Img → Nat
  | .decoded _ _ h => h
  | .faceImg _ h => h
  | .cropped _ _ t _ b => b - t
  | .resized _ _ h => h

/-- True exactly for images produced by the crop or resize operations of the
fallback reconstruction, false for directly decoded images. -/
def Img.isReconstructed : Img → Bool
  | .cropped _ _ _ _ _ => true
  | .resized _ _ _ => true
  | _ => false

/-- An assembled face composite: canvas dimensions as given to Image.new,
plus the list of paste operations (image, left offset, top offset) in the
order they were applied. -/
structure Canvas : Type where
  width : Nat
  height : Nat
  pastes : List (Img × Nat × Nat)
deriving DecidableEq, Repr

/-- Contents of a file on disk: raw bytes persisted from a network response
(identified by a content id), a saved face composite, or the saved
equirectangular projection output (recorded with the face size that
determined its 4*faceSize x 2*faceSize dimensions). -/
inductive File : Type where
  | remote (content : Nat)
  | face (c : Canvas)
  | equirect (faceSize : Nat)
deriving DecidableEq, Repr

/-- The local filesystem: a map from path to file contents. -/
def FS : Type := String → Option File

/-- The external world: whether a HEAD request for a url yields status 200
(timeouts and transport errors count as false, exactly as the bare except in
url_exists treats them), the body returned by a GET when it yields status 200
(none covers any other status, timeout or transport error, as in fetch_tile),
and the image decoder: the dimensions Image.open yields on a downloaded
content, or none when PIL cannot identify the image. -/
structure Net : Type where
  head200 : String → Bool
  get200 : String → Option Nat
  decode : Nat → Option (Nat × Nat)

/-- Exceptions that can escape the embedded functions: PIL failing to decode
a file (UnidentifiedImageError from Image.open) and the FileNotFoundError
raised by merge_to_equirect for a missing face image. -/
inductive Err : Type where
  | unidentifiedImage (path : String)
  | fileNotFound (path : String)
deriving DecidableEq, Repr

/-- Writing a file: the model of persisting bytes at a path (parent
directory creation is implicit in the flat path map). -/
def write_file (path : String) (f : File) (fs : FS) : FS :=
  fun q => if q = path then some f else fs q

/-- Character list prefix test, used to model directory containment. -/
def is_pre : List Char → List Char → Bool
  | [], _ => true
  | _ :: _, [] => false
  | a :: as, b :: bs => a = b && is_pre as bs

/-- A path p lies strictly inside directory dir when dir ++ "/" is a prefix
of p. -/
def str_under (dir p : String) : Bool :=
  is_pre (dir ++ "/").data p.data

/-- Model of shutil.rmtree dir with ignore_errors=True: every file under the
directory is removed; failures to delete are swallowed (the model is total). -/
def rmtree (dir : String) (fs : FS) : FS :=
  fun q => if str_under dir q then none else fs q

/-- Model of Image.open on a file: downloaded bytes decode according to the
decoder of the world; a saved face composite reopens with its canvas
dimensions; a saved equirectangular output reopens with its 4n x 2n
dimensions.  none models a raised UnidentifiedImageError. -/
def open_file (net : Net) : File → Option Img
  | .remote c =>
    match net.decode c with
    | some (w, h) => some (.decoded c w h)
    | none => none
  | .face c => some (.faceImg c.width c.height)
  | .equirect n => some (.faceImg (4 * n) (2 * n))

/-- Source build_version_suffix: empty version yields no suffix, a version
already starting with a question mark is kept, otherwise ?v= is prepended. -/
def build_version_suffix (version : String) : String :=
  if version = "" then ""
  else if version.startsWith "?" then version
  else s!"?v={version}"

/-- Source url_exists: a HEAD request with 200 meaning present; the bare
except returning False on any error is absorbed into Net.head200. -/
def url_exists (net : Net) (url : String) : Bool :=
  net.head200 url

/-- Result of fetch_tile: the returned boolean, the filesystem afterwards,
and the number of network requests issued by this call (0 or 1), which the
source never counts but the idempotence claim is about. -/
structure FetchResult : Type where
  ok : Bool
  fs : FS
  requests : Nat

/-- Source fetch_tile: immediate success when out_path already exists (cache
hit, no request); otherwise one GET: status 200 persists the body and
succeeds, anything else (non-200, timeout, transport error) fails; the bare
except is absorbed into get200 so no exception escapes. -/
def fetch_tile (net : Net) (fs : FS) (url out_path : String) : FetchResult :=
  if (fs out_path).isSome then ⟨true, fs, 0⟩
  else
    match net.get200 url with
    | some data => ⟨true, write_file out_path (.remote data) fs, 1⟩
    | none => ⟨false, fs, 1⟩

/-- The tile url template of the source:
base_url + pano_id + "/" + face + "/" + level + "/" + x + "_" + y + ".jpg" + version_suffix. -/
def tile_url (base_url pano_id face : String) (level x y : Nat) (version_suffix : String) : String :=
  s!"{base_url}{pano_id}/{face}/{level}/{x}_{y}.jpg{version_suffix}"

/-- The cache path of a tile inside its cache directory, as in
get_tile_with_fallback: cache_dir / level_x_y.jpg. -/
def tile_path (cache_dir : String) (level x y : Nat) : String :=
  s!"{cache_dir}/{level}_{x}_{y}.jpg"

/-- One scan loop of detect_max_grid: starting at index x with current best
acc, while the fuel lasts probe url_of x; a hit records x and continues, a
miss stops the scan. -/
def detect_loop (net : Net) (url_of : Nat → String) : Nat → Nat → Int → Int
  | 0, _, acc => acc
  | fuel + 1, x, acc =>
    if url_exists net (url_of x) then detect_loop net url_of fuel (x + 1) (Int.ofNat x)
    else acc

/-- Source detect_max_grid: the horizontal scan probes (level, x, 0) for
x = 0, 1, ... and the vertical scan probes (level, 0, y), each stopping at
the first miss or after max_check probes, starting from -1. -/
def detect_max_grid (net : Net) (base_url pano_id face version_suffix : String)
    (level : Nat) (max_check : Nat) : Int × Int :=
  (detect_loop net (fun x => tile_url base_url pano_id face level x 0 version_suffix) max_check 0 (-1),
   detect_loop net (fun y => tile_url base_url pano_id face level 0 y version_suffix) max_check 0 (-1))

/-- The list of fallback levels tried by get_tile_with_fallback at a given
level: range(level-1, -1, -1), that is level-1, level-2, ..., 0. -/
def fallback_list (level : Nat) : List Nat :=
  (List.range level).reverse

/-- The fallback loop of get_tile_with_fallback.  go is the recursive call
(one fuel step down).  For each fallback level fb: scale = 2^(level - fb),
the parent coordinate is (x / scale, y / scale); when the parent resolves,
the sub-region of edge TILE_SIZE / scale at offset
((x % scale) * (TILE_SIZE / scale), (y % scale) * (TILE_SIZE / scale)) is
cropped and resized back to TILE_SIZE x TILE_SIZE.  An exception from the
recursive call propagates. -/
def try_fallbacks (go : Nat → Nat → Nat → FS → Except Err (Option Img) × FS)
    (level x y : Nat) : List Nat → FS → Except Err (Option Img) × FS
  | [], fs => (.ok none, fs)
  | fb :: rest, fs =>
    let scale := 2 ^ (level - fb)
    let sr := go fb (x / scale) (y / scale) fs
    match sr.1 with
    | .error e => (.error e, sr.2)
    | .ok none => try_fallbacks go level x y rest sr.2
    | .ok (some sub) =>
      let sub_size := TILE_SIZE / scale
      let cx := (x % scale) * sub_size
      let cy := (y % scale) * sub_size
      (.ok (some ((sub.crop cx cy (cx + sub_size) (cy + sub_size)).resize TILE_SIZE TILE_SIZE)), sr.2)

/-- Fuel-indexed embedding of get_tile_with_fallback.  The source recursion
strictly decreases the level, so fuel level+1 suffices (proved below); the
fuel-0 branch is unreachable for adequate fuel.  A successful fetch is
followed by Image.open on the cached file: a decode failure raises (the
source has no handler around Image.open); a fetch failure enters the
fallback loop. -/
def get_tile_fuel (net : Net) (base_url pano_id face version_suffix cache_dir : String) :
    Nat → Nat → Nat → Nat → FS → Except Err (Option Img) × FS
  | 0, _, _, _, fs => (.ok none, fs)
  | fuel + 1, level, x, y, fs =>
    let out_path := tile_path cache_dir level x y
    let url := tile_url base_url pano_id face level x y version_suffix
    let fr := fetch_tile net fs url out_path
    if fr.ok then
      match fr.fs out_path with
      | some f =>
        match open_file net f with
        | some img => (.ok (some img), fr.fs)
        | none => (.error (.unidentifiedImage out_path), fr.fs)
      | none => (.error (.fileNotFound out_path), fr.fs)
    else
      try_fallbacks
        (fun fb fx fy fs0 => get_tile_fuel net base_url pano_id face version_suffix cache_dir fuel fb fx fy fs0)
        level x y (fallback_list level) fr.fs

/-- Source get_tile_with_fallback, with the fuel fixed at level+1, which the
termination theorem shows is enough. -/
def get_tile_with_fallback (net : Net) (base_url pano_id face version_suffix cache_dir : String)
    (level x y : Nat) (fs : FS) : Except Err (Option Img) × FS :=
  get_tile_fuel net base_url pano_id face version_suffix cache_dir (level + 1) level x y fs

/-- The cell traversal order of download_and_merge_face: for x in
range(max_x+1), for y in range(max_y+1). -/
def cell_list (nx ny : Nat) : List (Nat × Nat) :=
  (List.range nx).flatMap (fun x => (List.range ny).map (fun y => (x, y)))

/-- The tile loop of download_and_merge_face: resolve every cell in order,
recording for each cell the resolved tile (or none after exhausted
fallback); an exception from a resolution propagates immediately. -/
def merge_loop (net : Net) (base_url pano_id face version_suffix cache_dir : String) (level : Nat) :
    List (Nat × Nat) → FS → Except Err (List ((Nat × Nat) × Option Img)) × FS
  | [], fs => (.ok [], fs)
  | cell :: rest, fs =>
    let tr := get_tile_with_fallback net base_url pano_id face version_suffix cache_dir level cell.1 cell.2 fs
    match tr.1 with
    | .error e => (.error e, tr.2)
    | .ok t =>
      let mr := merge_loop net base_url pano_id face version_suffix cache_dir level rest tr.2
      match mr.1 with
      | .error e => (.error e, mr.2)
      | .ok rs => (.ok ((cell, t) :: rs), mr.2)

/-- Source download_and_merge_face: probe the grid at the given level; when
either extent is -1 the face is absent (returns None); otherwise allocate a
canvas of (max_x+1)*TILE_SIZE by (max_y+1)*TILE_SIZE, resolve every cell,
paste each resolved tile at offset (y*TILE_SIZE, x*TILE_SIZE) (the axis swap
written in the source), skip unresolved cells, save the composite at
save_dir/face.jpg and return that path. -/
def download_and_merge_face (net : Net) (base_url pano_id face version_suffix save_dir : String)
    (level : Nat) (fs : FS) : Except Err (Option String) × FS :=
  let face_dir := s!"{TEMP_DIR}/{pano_id}/{face}"
  let grid := detect_max_grid net base_url pano_id face version_suffix level 10
  if grid.1 < 0 ∨ grid.2 < 0 then (.ok none, fs)
  else
    let nx := grid.1.toNat + 1
    let ny := grid.2.toNat + 1
    let mr := merge_loop net base_url pano_id face version_suffix face_dir level (cell_list nx ny) fs
    match mr.1 with
    | .error e => (.error e, mr.2)
    | .ok rs =>
      let canvas : Canvas :=
        ⟨nx * TILE_SIZE, ny * TILE_SIZE,
         rs.filterMap (fun cr => cr.2.map (fun img => (img, cr.1.2 * TILE_SIZE, cr.1.1 * TILE_SIZE)))⟩
      let out_path := s!"{save_dir}/{face}.jpg"
      (.ok (some out_path), write_file out_path (.face canvas) mr.2)

/-- The face existence and load loop of merge_to_equirect: each face image
must exist under pano_dir (else FileNotFoundError) and open as an image. -/
def load_faces (net : Net) (fs : FS) (pano_dir : String) : List String → Except Err Unit
  | [] => .ok ()
  | face :: rest =>
    let p := s!"{pano_dir}/{face}.jpg"
    match fs p with
    | none => .error (.fileNotFound p)
    | some f =>
      match open_file net f with
      | none => .error (.unidentifiedImage p)
      | some _ => load_faces net fs pano_dir rest

/-- Source merge_to_equirect: load the six faces (raising for a missing
one), delegate to the external projection py360convert.c2e producing an
equirectangular raster of 2*face_size by 4*face_size, and save it at
out_path.  The projection itself is external and abstracted to the saved
output file. -/
def merge_to_equirect (net : Net) (fs : FS) (pano_dir out_path : String) (face_size : Nat) :
    Except Err FS :=
  match load_faces net fs pano_dir FACES with
  | .error e => .error e
  | .ok _ => .ok (write_file out_path (.equirect face_size) fs)

/-- The face loop of process_pano: assemble every face at level 0, taking as
face_size the width of the first successfully produced face image (reopened
from disk, as the source does). -/
def face_fold (net : Net) (base_url pano_id version_suffix pano_dir : String) :
    List String → Option Nat → FS → Except Err (Option Nat) × FS
  | [], fsz, fs => (.ok fsz, fs)
  | face :: rest, fsz, fs =>
    let dr := download_and_merge_face net base_url pano_id face version_suffix pano_dir 0 fs
    match dr.1 with
    | .error e => (.error e, dr.2)
    | .ok none => face_fold net base_url pano_id version_suffix pano_dir rest fsz dr.2
    | .ok (some face_path) =>
      match fsz with
      | some s => face_fold net base_url pano_id version_suffix pano_dir rest (some s) dr.2
      | none =>
        match dr.2 face_path with
        | none => (.error (.fileNotFound face_path), dr.2)
        | some f =>
          match open_file net f with
          | none => (.error (.unidentifiedImage face_path), dr.2)
          | some img => face_fold net base_url pano_id version_suffix pano_dir rest (some img.width) dr.2

/-- The tail of process_pano after the face loop: when face_size is truthy
(python: a set, nonzero size) the projection runs and, only after it
succeeds, the pano folder and the shared temp tile root are purged; when
face_size is falsy nothing further happens.  An exception from the
projection propagates before any cleanup. -/
def after_faces (net : Net) (loc_name pano_id pano_dir : String)
    (r : Except Err (Option Nat)) (fs1 : FS) : Except Err Unit × FS :=
  match r with
  | .error e => (.error e, fs1)
  | .ok fsz =>
    if fsz.getD 0 ≠ 0 then
      let equi_path := s!"{OUT_DIR}/{loc_name}/{pano_id}.jpg"
      match merge_to_equirect net fs1 pano_dir equi_path (fsz.getD 0) with
      | .error e => (.error e, fs1)
      | .ok fs2 => (.ok (), rmtree TEMP_DIR (rmtree pano_dir fs2))
    else (.ok (), fs1)

/-- A location record as produced by load_data: name, slash-terminated base
url, panorama ids, version token. -/
structure Location : Type where
  name : String
  baseUrl : String
  panoramas : List String
  version : String

/-- Source process_pano: assemble the six faces of one panorama at level 0,
then hand the result to after_faces (projection plus conditional cleanup). -/
def process_pano (net : Net) (loc : Location) (pano_id : String) (fs : FS) :
    Except Err Unit × FS :=
  let version_suffix := build_version_suffix loc.version
  let pano_dir := s!"{OUT_DIR}/{loc.name}/{pano_id}"
  let r := face_fold net loc.baseUrl pano_id version_suffix pano_dir FACES none fs
  after_faces net loc.name pano_id pano_dir r.1 r.2

/-- The inner loop of main over the panorama ids of one location; an
exception from process_pano propagates (the source has no handler). -/
def pano_fold (net : Net) (loc : Location) : List String → FS → Except Err Unit × FS
  | [], fs => (.ok (), fs)
  | pid :: rest, fs =>
    let pr := process_pano net loc pid fs
    match pr.1 with
    | .error e => (.error e, pr.2)
    | .ok _ => pano_fold net loc rest pr.2

/-- Source main, over already loaded location data: the outer loop over
locations; an exception from any panorama propagates and ends the run. -/
def main_run (net : Net) : List Location → FS → Except Err Unit × FS
  | [], fs => (.ok (), fs)
  | loc :: rest, fs =>
    let lr := pano_fold net loc loc.panoramas fs
    match lr.1 with
    | .error e => (.error e, lr.2)
    | .ok _ => main_run net rest lr.2

/-- Length of the run of consecutive hits starting at index x, capped by the
fuel: the number of probes that succeed before the first miss (or the probe
budget runs out).  Characterizes the scan loops of detect_max_grid. -/
def hit_run (hit : Nat → Bool) : Nat → Nat → Nat
  | 0, _ => 0
  | fuel + 1, x => if hit x then hit_run hit fuel (x + 1) + 1 else 0

/-- The empty filesystem. -/
def fs_empty : FS := fun _ => none

/-- The empty version suffix (version token absent). -/
def vs0 : String := ""

/-- Base url of the concrete worlds. -/
def base_w : String := "https://s/"

/-- Panorama id of the failing panorama in the pipeline world. -/
def pano1 : String := "p1"

/-- Panorama id of the fully assemblable panorama in the pipeline world. -/
def pano2 : String := "p2"

/-- Panorama id used by the single-tile worlds. -/
def panoP : String := "p"

/-- Face id used by the single-tile worlds. -/
def face_f : String := "f"

/-- Cache directory used by the single-tile worlds. -/
def cache_w : String := "temp_tiles/p/f"

/-- Tiles present in the pipeline world: panorama p1 has only the single
level-0 tile of face f, panorama p2 has the level-0 tile (0,0) of all six
faces. -/
def w1_tiles : List String :=
  tile_url base_w pano1 face_f 0 0 0 vs0 ::
    FACES.map (fun fc => tile_url base_w pano2 fc 0 0 0 vs0)

/-- Pipeline world: HEAD and GET agree on w1_tiles, every download decodes
as a 512 x 512 image. -/
def net_w1 : Net :=
  ⟨fun u => w1_tiles.contains u,
   fun u => if w1_tiles.contains u then some 1 else none,
   fun _ => some (TILE_SIZE, TILE_SIZE)⟩

/-- The location of the pipeline world: two panoramas, p1 then p2. -/
def loc_w1 : Location := ⟨"L", base_w, [pano1, pano2], vs0⟩

/-- Fallback world: only the level-0 tile (0,0) of face f exists; every
download decodes as a 512 x 512 image. -/
def net_w2 : Net :=
  ⟨fun _ => false,
   fun u => if u = tile_url base_w panoP face_f 0 0 0 vs0 then some 7 else none,
   fun _ => some (TILE_SIZE, TILE_SIZE)⟩

/-- Decode failure world: the level-1 tile (0,0) exists but its bytes
(content 9) do not decode; the level-0 tile (0,0) exists and decodes. -/
def net_w5 : Net :=
  ⟨fun _ => false,
   fun u =>
     if u = tile_url base_w panoP face_f 1 0 0 vs0 then some 9
     else if u = tile_url base_w panoP face_f 0 0 0 vs0 then some 7 else none,
   fun c => if c = 9 then none else some (TILE_SIZE, TILE_SIZE)⟩

/-- Probe world: row tiles x = 0, 1, 2 of level 0 exist and x = 3 does not;
the column has only y = 0. -/
def w7_tiles : List String :=
  [tile_url base_w panoP face_f 0 0 0 vs0,
   tile_url base_w panoP face_f 0 1 0 vs0,
   tile_url base_w panoP face_f 0 2 0 vs0]

/-- Probe world network. -/
def net_w7 : Net := ⟨fun u => w7_tiles.contains u, fun _ => none, fun _ => none⟩

/-- Fetcher world where every GET fails. -/
def net_w9fail : Net := ⟨fun _ => false, fun _ => none, fun _ => none⟩

/-- Fetcher world where every GET succeeds with content 3. -/
def net_w9ok : Net := ⟨fun _ => false, fun _ => some 3, fun _ => none⟩

/-- Url used by the fetcher worlds. -/
def url_w : String := "https://s/u"

/-- Destination path used by the fetcher worlds. -/
def path_w : String := "cache/u"

/-- Every member of the fallback list lies strictly below the level. -/
theorem mem_fallback_list {fb level : Nat} (h : fb ∈ fallback_list level) : fb < level := by
  rw [fallback_list, List.mem_reverse, List.mem_range] at h
  exact h

/-- The fallback loop only depends on the recursion hook at members of the
fallback level list. -/
theorem try_fallbacks_congr (go1 go2 : Nat → Nat → Nat → FS → Except Err (Option Img) × FS)
    (level x y : Nat) (fbs : List Nat)
    (h : ∀ fb ∈ fbs, ∀ a b fs0, go1 fb a b fs0 = go2 fb a b fs0) :
    ∀ fs : FS, try_fallbacks go1 level x y fbs fs = try_fallbacks go2 level x y fbs fs := by
  induction fbs with
  | nil => intro fs; rfl
  | cons fb rest ih =>
    intro fs
    simp only [try_fallbacks]
    rw [h fb (List.mem_cons_self fb rest)]
    cases (go2 fb (x / 2 ^ (level - fb)) (y / 2 ^ (level - fb)) fs).1 with
    | error e => rfl
    | ok t =>
      cases t with
      | none => exact ih (fun fb2 hm => h fb2 (List.mem_cons_of_mem fb hm)) _
      | some sub => rfl

/-- Any two fuel values strictly above the level give the same result: the
recursion of get_tile_with_fallback descends only to strictly smaller
levels, so level+1 frames always suffice. -/
theorem get_tile_fuel_irrel (net : Net) (bu pi fc vs cd : String) :
    ∀ level f1 f2, level < f1 → level < f2 → ∀ x y fs,
      get_tile_fuel net bu pi fc vs cd f1 level x y fs =
        get_tile_fuel net bu pi fc vs cd f2 level x y fs := by
  intro level
  induction level using Nat.strong_induction_on with
  | _ level ih =>
    intro f1 f2 h1 h2 x y fs
    match f1, h1 with
    | a + 1, h1 =>
    match f2, h2 with
    | b + 1, h2 =>
    simp only [get_tile_fuel]
    cases (fetch_tile net fs (tile_url bu pi fc level x y vs) (tile_path cd level x y)).ok with
    | true => rfl
    | false =>
      simp only [Bool.false_eq_true, if_false]
      apply try_fallbacks_congr
      intro fb hm fx fy fs0
      have hfb : fb < level := mem_fallback_list hm
      exact ih fb hfb a b (by omega) (by omega) fx fy fs0

/-- Claim C10: for every level and coordinates, the recursive
get_tile_with_fallback terminates with recursion depth at most the level:
each recursive call strictly decreases the level (bounded below by 0, where
the fallback loop is empty), so any fuel budget strictly above the level
computes the same result as the canonical budget level+1. -/
theorem C10_termination (net : Net) (bu pi fc vs cd : String) (level x y : Nat) (fs : FS)
    (fuel : Nat) (h : level < fuel) :
    get_tile_fuel net bu pi fc vs cd fuel level x y fs =
      get_tile_with_fallback net bu pi fc vs cd level x y fs :=
  get_tile_fuel_irrel net bu pi fc vs cd level fuel (level + 1) h (Nat.lt_succ_self level) x y fs

/-- Witness for C10 at a concrete input: fuel 5 computes the same result as
the canonical fuel 2 for a level-1 request in the fallback world. -/
theorem C10_witness :
    1 < 5 ∧
      get_tile_fuel net_w2 base_w panoP face_f vs0 cache_w 5 1 1 1 fs_empty =
        get_tile_with_fallback net_w2 base_w panoP face_f vs0 cache_w 1 1 1 fs_empty :=
  ⟨by decide, C10_termination net_w2 base_w panoP face_f vs0 cache_w 1 1 1 fs_empty 5 (by decide)⟩

/-- Claim C9 counterexample: with a server that never returns 200 and an
empty cache, two fetch calls with the same url and destination path both
miss the cache and both issue a network request: two requests in total,
refuting the claimed bound of at most one request across a second call. -/
theorem C9_counterexample :
    (fetch_tile net_w9fail fs_empty url_w path_w).requests +
        (fetch_tile net_w9fail (fetch_tile net_w9fail fs_empty url_w path_w).fs url_w path_w).requests = 2 ∧
      ¬((fetch_tile net_w9fail fs_empty url_w path_w).requests +
          (fetch_tile net_w9fail (fetch_tile net_w9fail fs_empty url_w path_w).fs url_w path_w).requests ≤ 1) :=
  ⟨rfl, by decide⟩

/-- Claim C9 (amended): the fetcher returns success immediately with no
network request when the destination already exists; on a cache miss it
issues exactly one request and succeeds exactly when the GET yields 200 and
the body is persisted at the destination, failing (with the filesystem
unchanged) on any other outcome; and a second call with the same destination
performs no further network request provided the first call succeeded.  The
amendment: after a FAILED first call nothing is cached, so a second call
issues another request (see the counterexample); the at-most-one-request
bound holds only when the first call succeeds. -/
theorem C9_amended (net : Net) (fs : FS) (url path : String) (d : Nat) :
    (fs path ≠ none → fetch_tile net fs url path = ⟨true, fs, 0⟩) ∧
    (fs path = none → net.get200 url = some d →
      fetch_tile net fs url path = ⟨true, write_file path (.remote d) fs, 1⟩) ∧
    (fs path = none → net.get200 url = none →
      fetch_tile net fs url path = ⟨false, fs, 1⟩) ∧
    ((fetch_tile net fs url path).ok = true →
      fetch_tile net (fetch_tile net fs url path).fs url path =
        ⟨true, (fetch_tile net fs url path).fs, 0⟩) := by
  refine ⟨?_, ?_, ?_, ?_⟩
  · intro h
    rw [fetch_tile, if_pos (Option.isSome_iff_ne_none.mpr h)]
  · intro h hg
    rw [fetch_tile, if_neg (by simp [h]), hg]
  · intro h hg
    rw [fetch_tile, if_neg (by simp [h]), hg]
  · intro h
    cases hp : fs path with
    | some f =>
      have h1 : fetch_tile net fs url path = ⟨true, fs, 0⟩ := by
        rw [fetch_tile, if_pos (by simp [hp])]
      rw [h1]
      rw [fetch_tile, if_pos (by simp [hp])]
    | none =>
      cases hg : net.get200 url with
      | some d2 =>
        have h1 : fetch_tile net fs url path = ⟨true, write_file path (.remote d2) fs, 1⟩ := by
          rw [fetch_tile, if_neg (by simp [hp]), hg]
        rw [h1]
        rw [fetch_tile, if_pos (by simp [write_file])]
      | none =>
        have h1 : fetch_tile net fs url path = ⟨false, fs, 1⟩ := by
          rw [fetch_tile, if_neg (by simp [hp]), hg]
        rw [h1] at h
        simp at h

/-- Witness for C9 at a concrete input: on an empty cache a successful fetch
issues one request and persists the body; the repeated call is a cache hit
with no request. -/
theorem C9_witness :
    fs_empty path_w = none ∧
      fetch_tile net_w9ok fs_empty url_w path_w = ⟨true, write_file path_w (.remote 3) fs_empty, 1⟩ ∧
      fetch_tile net_w9ok (fetch_tile net_w9ok fs_empty url_w path_w).fs url_w path_w =
        ⟨true, (fetch_tile net_w9ok fs_empty url_w path_w).fs, 0⟩ :=
  ⟨rfl,
   (C9_amended net_w9ok fs_empty url_w path_w 3).2.1 rfl rfl,
   (C9_amended net_w9ok fs_empty url_w path_w 3).2.2.2 rfl⟩

/-- Claim C5 counterexample: in a world where the level-1 tile file fetches
successfully but does not decode while the level-0 parent exists and
decodes, resolveTile raises (the UnidentifiedImageError of Image.open
escapes) instead of treating the tile as absent and reconstructing from the
coarser level, refuting the claim. -/
theorem C5_counterexample :
    (get_tile_with_fallback net_w5 base_w panoP face_f vs0 cache_w 1 0 0 fs_empty).1 =
        .error (.unidentifiedImage (tile_path cache_w 1 0 0)) ∧
      (get_tile_with_fallback net_w5 base_w panoP face_f vs0 cache_w 0 0 0 fs_empty).1 =
        .ok (some (.decoded 7 TILE_SIZE TILE_SIZE)) :=
  ⟨rfl, rfl⟩

/-- Claim C5 (amended): when the fetch at (level, x, y) succeeds but the
resulting file does not decode, the decode exception propagates out of
resolveTile with no fallback attempted; only a failed fetch (absent file and
no 200 response) triggers the coarser-level fallback. -/
theorem C5_amended (net : Net) (bu pi fc vs cd : String) (level x y : Nat) (fs : FS) (f : File)
    (hok : (fetch_tile net fs (tile_url bu pi fc level x y vs) (tile_path cd level x y)).ok = true)
    (hfile : (fetch_tile net fs (tile_url bu pi fc level x y vs) (tile_path cd level x y)).fs
        (tile_path cd level x y) = some f)
    (hdec : open_file net f = none) :
    get_tile_with_fallback net bu pi fc vs cd level x y fs =
      (.error (.unidentifiedImage (tile_path cd level x y)),
       (fetch_tile net fs (tile_url bu pi fc level x y vs) (tile_path cd level x y)).fs) := by
  rw [get_tile_with_fallback]
  simp only [get_tile_fuel, hok, if_true, hfile, hdec]

/-- Witness for C5 at a concrete input: the decode failure world satisfies
the amended description at level 1. -/
theorem C5_witness :
    open_file net_w5 (.remote 9) = none ∧
      get_tile_with_fallback net_w5 base_w panoP face_f vs0 cache_w 1 0 0 fs_empty =
        (.error (.unidentifiedImage (tile_path cache_w 1 0 0)),
         (fetch_tile net_w5 fs_empty (tile_url base_w panoP face_f 1 0 0 vs0)
           (tile_path cache_w 1 0 0)).fs) :=
  ⟨rfl,
   C5_amended net_w5 base_w panoP face_f vs0 cache_w 1 0 0 fs_empty (.remote 9) rfl rfl rfl⟩

/-- Claim C3 counterexample: with tile (1,1,1) absent and (0,0,0) present,
the reconstruction crops the box (256, 256, 512, 512) of the 512 x 512
parent, not the claimed quadrant (512, 512, 1024, 1024), which lies entirely
outside the parent image; the two reconstructions are distinct. -/
theorem C3_counterexample :
    (get_tile_with_fallback net_w2 base_w panoP face_f vs0 cache_w 1 1 1 fs_empty).1 =
        .ok (some (((Img.decoded 7 512 512).crop 256 256 512 512).resize 512 512)) ∧
      ((Img.decoded 7 512 512).crop 256 256 512 512).resize 512 512 ≠
        ((Img.decoded 7 512 512).crop 512 512 1024 1024).resize 512 512 :=
  ⟨rfl, by decide⟩

/-- Claim C3 (amended): when tile (1,1,1) misses its fetch and the level-0
tile (0,0) resolves to a parent image, the fallback computes scale = 2 and
reconstructs the tile by cropping the quadrant from (256,256) to (512,512)
of the parent - the bottom right quadrant of the 512 x 512 parent image in
parent pixel coordinates - and upscaling it to 512 x 512. -/
theorem C3_amended (net : Net) (bu pi fc vs cd : String) (fs fs1 : FS) (parent : Img)
    (hfetch : (fetch_tile net fs (tile_url bu pi fc 1 1 1 vs) (tile_path cd 1 1 1)).ok = false)
    (hsub : get_tile_with_fallback net bu pi fc vs cd 0 0 0
        (fetch_tile net fs (tile_url bu pi fc 1 1 1 vs) (tile_path cd 1 1 1)).fs =
      (.ok (some parent), fs1)) :
    get_tile_with_fallback net bu pi fc vs cd 1 1 1 fs =
      (.ok (some ((parent.crop 256 256 512 512).resize 512 512)), fs1) := by
  rw [get_tile_with_fallback] at hsub ⊢
  norm_num at hsub
  rw [get_tile_fuel]
  simp only [hfetch, Bool.false_eq_true, if_false]
  rw [show fallback_list 1 = [0] from rfl]
  rw [try_fallbacks]
  norm_num
  rw [hsub]
  simp [TILE_SIZE, Img.crop, Img.resize]

/-- Witness for C3 at a concrete input: the fallback world realizes the
amended reconstruction of tile (1,1,1) from the level-0 parent. -/
theorem C3_witness :
    (fetch_tile net_w2 fs_empty (tile_url base_w panoP face_f 1 1 1 vs0)
        (tile_path cache_w 1 1 1)).ok = false ∧
      get_tile_with_fallback net_w2 base_w panoP face_f vs0 cache_w 1 1 1 fs_empty =
        (.ok (some (((Img.decoded 7 512 512).crop 256 256 512 512).resize 512 512)),
         (get_tile_with_fallback net_w2 base_w panoP face_f vs0 cache_w 0 0 0
           (fetch_tile net_w2 fs_empty (tile_url base_w panoP face_f 1 1 1 vs0)
             (tile_path cache_w 1 1 1)).fs).2) :=
  ⟨rfl,
   C3_amended net_w2 base_w panoP face_f vs0 cache_w fs_empty _ (.decoded 7 512 512) rfl rfl⟩

/-- A file visible after a fetch either was already on disk or is the
remote body just persisted by that fetch. -/
theorem fetch_fs_lookup (net : Net) (fs : FS) (url path q : String) (f : File)
    (h : (fetch_tile net fs url path).fs q = some f) :
    fs q = some f ∨ ∃ d, net.get200 url = some d ∧ f = .remote d := by
  rw [fetch_tile] at h
  split at h
  · exact Or.inl h
  · cases hg : net.get200 url with
    | some d =>
      rw [hg] at h
      simp only [write_file] at h
      by_cases hq : q = path
      · rw [if_pos hq] at h
        exact Or.inr ⟨d, rfl, (Option.some.inj h).symm⟩
      · rw [if_neg hq] at h
        exact Or.inl h
    | none =>
      rw [hg] at h
      exact Or.inl h

/-- A decoded remote file yields an image of exactly the decoded size. -/
theorem open_remote_size (net : Net) (d : Nat) (img : Img)
    (h : open_file net (.remote d) = some img) :
    ∃ w hh, net.decode d = some (w, hh) ∧ img = .decoded d w hh := by
  rw [open_file] at h
  cases hg : net.decode d with
  | none => rw [hg] at h; exact absurd h (by simp)
  | some p =>
    rw [hg] at h
    exact ⟨p.1, p.2, rfl, (Option.some.inj h).symm⟩

/-- When the fallback loop produces a tile, some fallback level in the list
produced a parent tile at the quotient coordinate, and the result is exactly
the crop of the parent sub-region of edge TILE_SIZE / scale at offset
((x mod scale) * (TILE_SIZE / scale), (y mod scale) * (TILE_SIZE / scale)),
resized to TILE_SIZE x TILE_SIZE, where scale = 2 ^ (level - fb). -/
theorem try_fallbacks_some (go : Nat → Nat → Nat → FS → Except Err (Option Img) × FS)
    (level x y : Nat) :
    ∀ (fbs : List Nat) (fs fs1 : FS) (img : Img),
      try_fallbacks go level x y fbs fs = (.ok (some img), fs1) →
      ∃ fb, fb ∈ fbs ∧ ∃ sub fs0,
        (go fb (x / 2 ^ (level - fb)) (y / 2 ^ (level - fb)) fs0).1 = .ok (some sub) ∧
        (go fb (x / 2 ^ (level - fb)) (y / 2 ^ (level - fb)) fs0).2 = fs1 ∧
        img = (sub.crop ((x % 2 ^ (level - fb)) * (TILE_SIZE / 2 ^ (level - fb)))
                ((y % 2 ^ (level - fb)) * (TILE_SIZE / 2 ^ (level - fb)))
                ((x % 2 ^ (level - fb)) * (TILE_SIZE / 2 ^ (level - fb)) + TILE_SIZE / 2 ^ (level - fb))
                ((y % 2 ^ (level - fb)) * (TILE_SIZE / 2 ^ (level - fb)) + TILE_SIZE / 2 ^ (level - fb))).resize
              TILE_SIZE TILE_SIZE := by
  intro fbs
  induction fbs with
  | nil =>
    intro fs fs1 img h
    rw [try_fallbacks] at h
    exact absurd ((Prod.mk.injEq _ _ _ _).mp h).1 (by simp)
  | cons fb rest ih =>
    intro fs fs1 img h
    rw [try_fallbacks] at h
    cases hsr : (go fb (x / 2 ^ (level - fb)) (y / 2 ^ (level - fb)) fs).1 with
    | error e =>
      rw [hsr] at h
      exact absurd ((Prod.mk.injEq _ _ _ _).mp h).1 (by simp)
    | ok t =>
      cases t with
      | none =>
        rw [hsr] at h
        obtain ⟨fb2, hm, rest2⟩ := ih _ _ _ h
        exact ⟨fb2, List.mem_cons_of_mem fb hm, rest2⟩
      | some sub =>
        rw [hsr] at h
        obtain ⟨h1, h2⟩ := (Prod.mk.injEq _ _ _ _).mp h
        refine ⟨fb, List.mem_cons_self fb rest, sub, fs, hsr, h2, ?_⟩
        exact (Option.some.inj (Except.ok.inj h1)).symm

/-- Claim C2: every tile that resolveTile satisfies from a coarser fallback
level fb < level is reconstructed with scale = 2^(level - fb) from the
parent tile at coordinate (x / scale, y / scale): the parent sub-region of
edge TILE_SIZE / scale at offset ((x mod scale) * (TILE_SIZE / scale),
(y mod scale) * (TILE_SIZE / scale)) is cropped and upscaled by interpolated
resampling to TILE_SIZE x TILE_SIZE; consequently, whenever every decodable
content and every file initially on disk opens as a TILE_SIZE square (the
TileImage invariant of the data model), every non-absent result of
resolveTile has edge length exactly TILE_SIZE = 512, regardless of which
level satisfied it. -/
theorem C2_fallback_geometry (net : Net) (bu pi fc vs cd : String)
    (level x y : Nat) (fs fs1 : FS) (img : Img)
    (h : get_tile_with_fallback net bu pi fc vs cd level x y fs = (.ok (some img), fs1))
    (hdec : ∀ c w hh, net.decode c = some (w, hh) → w = TILE_SIZE ∧ hh = TILE_SIZE)
    (hfs : ∀ q f i, fs q = some f → open_file net f = some i →
      i.width = TILE_SIZE ∧ i.height = TILE_SIZE) :
    ((∃ f, (fetch_tile net fs (tile_url bu pi fc level x y vs) (tile_path cd level x y)).fs
          (tile_path cd level x y) = some f ∧ open_file net f = some img) ∨
      (∃ fb, fb < level ∧ ∃ sub fs0,
        (get_tile_with_fallback net bu pi fc vs cd fb (x / 2 ^ (level - fb))
              (y / 2 ^ (level - fb)) fs0).1 = .ok (some sub) ∧
          (get_tile_with_fallback net bu pi fc vs cd fb (x / 2 ^ (level - fb))
              (y / 2 ^ (level - fb)) fs0).2 = fs1 ∧
          img = (sub.crop ((x % 2 ^ (level - fb)) * (TILE_SIZE / 2 ^ (level - fb)))
                  ((y % 2 ^ (level - fb)) * (TILE_SIZE / 2 ^ (level - fb)))
                  ((x % 2 ^ (level - fb)) * (TILE_SIZE / 2 ^ (level - fb)) + TILE_SIZE / 2 ^ (level - fb))
                  ((y % 2 ^ (level - fb)) * (TILE_SIZE / 2 ^ (level - fb)) + TILE_SIZE / 2 ^ (level - fb))).resize
                TILE_SIZE TILE_SIZE)) ∧
      img.width = TILE_SIZE ∧ img.height = TILE_SIZE := by
  rw [get_tile_with_fallback] at h
  simp only [get_tile_fuel] at h
  by_cases hok :
      (fetch_tile net fs (tile_url bu pi fc level x y vs) (tile_path cd level x y)).ok = true
  · rw [if_pos hok] at h
    split at h
    · rename_i f hf
      split at h
      · rename_i i ho
        obtain ⟨h1, h2⟩ := (Prod.mk.injEq _ _ _ _).mp h
        have hi : i = img := Option.some.inj (Except.ok.inj h1)
        subst hi
        refine ⟨Or.inl ⟨f, hf, ho⟩, ?_⟩
        rcases fetch_fs_lookup net fs (tile_url bu pi fc level x y vs) (tile_path cd level x y)
            (tile_path cd level x y) f hf with hold | ⟨d, hgd, hfd⟩
        · exact hfs _ f i hold ho
        · subst hfd
          obtain ⟨w, hh, hdec2, hid⟩ := open_remote_size net d i ho
          subst hid
          obtain ⟨hw, hhh⟩ := hdec d w hh hdec2
          exact ⟨by simp [Img.width, hw], by simp [Img.height, hhh]⟩
      · exact absurd ((Prod.mk.injEq _ _ _ _).mp h).1 (by simp)
    · exact absurd ((Prod.mk.injEq _ _ _ _).mp h).1 (by simp)
  · rw [if_neg hok] at h
    obtain ⟨fb, hm, sub, fs0, hg1, hg2, himg⟩ := try_fallbacks_some _ level x y _ _ _ _ h
    have hfb := mem_fallback_list hm
    have hirr : ∀ a b fsz, get_tile_fuel net bu pi fc vs cd level fb a b fsz =
        get_tile_with_fallback net bu pi fc vs cd fb a b fsz :=
      fun a b fsz =>
        get_tile_fuel_irrel net bu pi fc vs cd fb level (fb + 1) hfb (Nat.lt_succ_self fb) a b fsz
    have hg1a : (get_tile_fuel net bu pi fc vs cd level fb (x / 2 ^ (level - fb))
        (y / 2 ^ (level - fb)) fs0).1 = .ok (some sub) := hg1
    have hg2a : (get_tile_fuel net bu pi fc vs cd level fb (x / 2 ^ (level - fb))
        (y / 2 ^ (level - fb)) fs0).2 = fs1 := hg2
    rw [hirr] at hg1a hg2a
    refine ⟨Or.inr ⟨fb, hfb, sub, fs0, hg1a, hg2a, himg⟩, ?_⟩
    rw [himg]
    exact ⟨by simp [Img.width, Img.resize], by simp [Img.height, Img.resize]⟩

/-- Witness for C2 at a concrete input: in the fallback world, tile (1,1,1)
is satisfied from level 0 and the reconstruction is the bottom right
quadrant crop resized to 512 x 512. -/
theorem C2_witness :
    (get_tile_with_fallback net_w2 base_w panoP face_f vs0 cache_w 1 1 1 fs_empty =
        (.ok (some (((Img.decoded 7 512 512).crop 256 256 512 512).resize 512 512)),
         write_file (tile_path cache_w 0 0 0) (.remote 7) fs_empty)) ∧
      (((∃ f, (fetch_tile net_w2 fs_empty (tile_url base_w panoP face_f 1 1 1 vs0)
              (tile_path cache_w 1 1 1)).fs (tile_path cache_w 1 1 1) = some f ∧
            open_file net_w2 f =
              some (((Img.decoded 7 512 512).crop 256 256 512 512).resize 512 512)) ∨
          (∃ fb, fb < 1 ∧ ∃ sub fs0,
            (get_tile_with_fallback net_w2 base_w panoP face_f vs0 cache_w fb (1 / 2 ^ (1 - fb))
                (1 / 2 ^ (1 - fb)) fs0).1 = .ok (some sub) ∧
              (get_tile_with_fallback net_w2 base_w panoP face_f vs0 cache_w fb (1 / 2 ^ (1 - fb))
                  (1 / 2 ^ (1 - fb)) fs0).2 =
                write_file (tile_path cache_w 0 0 0) (.remote 7) fs_empty ∧
              ((Img.decoded 7 512 512).crop 256 256 512 512).resize 512 512 =
                (sub.crop ((1 % 2 ^ (1 - fb)) * (TILE_SIZE / 2 ^ (1 - fb)))
                    ((1 % 2 ^ (1 - fb)) * (TILE_SIZE / 2 ^ (1 - fb)))
                    ((1 % 2 ^ (1 - fb)) * (TILE_SIZE / 2 ^ (1 - fb)) + TILE_SIZE / 2 ^ (1 - fb))
                    ((1 % 2 ^ (1 - fb)) * (TILE_SIZE / 2 ^ (1 - fb)) + TILE_SIZE / 2 ^ (1 - fb))).resize
                  TILE_SIZE TILE_SIZE)) ∧
        (((Img.decoded 7 512 512).crop 256 256 512 512).resize 512 512).width = TILE_SIZE ∧
          (((Img.decoded 7 512 512).crop 256 256 512 512).resize 512 512).height = TILE_SIZE) :=
  ⟨rfl,
   C2_fallback_geometry net_w2 base_w panoP face_f vs0 cache_w 1 1 1 fs_empty
     (write_file (tile_path cache_w 0 0 0) (.remote 7) fs_empty)
     (((Img.decoded 7 512 512).crop 256 256 512 512).resize 512 512) rfl
     (by
       intro c w hh hcw
       injection hcw with hp
       injection hp with h1 h2
       exact ⟨h1.symm, h2.symm⟩)
     (by
       intro q f i hq ho
       exact absurd hq (by simp [fs_empty]))⟩

/-- The scan loop of detect_max_grid returns its accumulator when the first
probe misses, and otherwise the index of the last hit of the consecutive run
of hits starting at x, capped by the probe budget. -/
theorem detect_loop_eq (net : Net) (u : Nat → String) :
    ∀ (fuel x : Nat) (acc : Int),
      detect_loop net u fuel x acc =
        if hit_run (fun i => url_exists net (u i)) fuel x = 0 then acc
        else Int.ofNat (x + hit_run (fun i => url_exists net (u i)) fuel x - 1) := by
  intro fuel
  induction fuel with
  | zero => intro x acc; rfl
  | succ n ih =>
    intro x acc
    simp only [detect_loop, hit_run]
    by_cases hx : url_exists net (u x) = true
    · rw [if_pos hx, if_pos hx, ih (x + 1) (Int.ofNat x)]
      by_cases hr : hit_run (fun i => url_exists net (u i)) n (x + 1) = 0
      · rw [if_pos hr, hr, if_neg (by omega)]
        rfl
      · rw [if_neg hr, if_neg (by omega)]
        congr 1
        omega
    · rw [if_neg hx, if_neg hx, if_pos rfl]

/-- The hit run cannot pass a missing index. -/
theorem hit_run_reach (hit : Nat → Bool) :
    ∀ (fuel x k : Nat), x ≤ k → hit k = false → x + hit_run hit fuel x ≤ k := by
  intro fuel
  induction fuel with
  | zero => intro x k hxk hk; simpa [hit_run] using hxk
  | succ n ih =>
    intro x k hxk hk
    rw [hit_run]
    by_cases hx : hit x = true
    · rw [if_pos hx]
      have hxk2 : x + 1 ≤ k := by
        rcases Nat.lt_or_ge x k with hlt | hge
        · omega
        · have hxe : x = k := by omega
          rw [hxe] at hx
          rw [hx] at hk
          exact absurd hk (by simp)
      have := ih (x + 1) k hxk2 hk
      omega
    · rw [if_neg hx]
      omega

/-- Every index inside the hit run is a hit. -/
theorem hit_run_hits (hit : Nat → Bool) :
    ∀ (fuel x j : Nat), j < hit_run hit fuel x → hit (x + j) = true := by
  intro fuel
  induction fuel with
  | zero => intro x j h; rw [hit_run] at h; omega
  | succ n ih =>
    intro x j h
    rw [hit_run] at h
    by_cases hx : hit x = true
    · rw [if_pos hx] at h
      cases j with
      | zero => simpa using hx
      | succ j2 =>
        have hj := ih (x + 1) j2 (by omega)
        have heq : x + (j2 + 1) = (x + 1) + j2 := by omega
        rw [heq]
        exact hj
    · rw [if_neg hx] at h
      omega

/-- When the hit run stops before the probe budget is exhausted, the index
right after the run is a miss: the scan stopped at the first miss. -/
theorem hit_run_stop (hit : Nat → Bool) :
    ∀ (fuel x : Nat), hit_run hit fuel x < fuel → hit (x + hit_run hit fuel x) = false := by
  intro fuel
  induction fuel with
  | zero => intro x h; omega
  | succ n ih =>
    intro x h
    rw [hit_run] at h ⊢
    by_cases hx : hit x = true
    · rw [if_pos hx] at h ⊢
      have hs := ih (x + 1) (by omega)
      have heq : x + (hit_run hit n (x + 1) + 1) = (x + 1) + hit_run hit n (x + 1) := by omega
      rw [heq]
      exact hs
    · rw [if_neg hx] at h ⊢
      simpa using hx

/-- Claim C7: for every face and level, the probe determines maxX by
existence-checking the consecutive urls (level,0,0), (level,1,0), ...,
stopping at the first miss or after 10 probes: maxX is the index of the last
hit of the consecutive run from 0 (equivalently run-1, and -1 when the run
is empty because (level,0,0) itself misses), every index below the run is a
hit, the index right after a run that stops before 10 is a miss, and probing
is monotonic: an absent (level,k,0) forces maxX < k; maxY satisfies the same
facts along the (level,0,y) column. -/
theorem C7_probe_characterization (net : Net) (bu pi fc vs : String) (level k : Nat) :
    ((detect_max_grid net bu pi fc vs level 10).1 =
        if hit_run (fun x => url_exists net (tile_url bu pi fc level x 0 vs)) 10 0 = 0 then -1
        else Int.ofNat (hit_run (fun x => url_exists net (tile_url bu pi fc level x 0 vs)) 10 0 - 1)) ∧
      (k < hit_run (fun x => url_exists net (tile_url bu pi fc level x 0 vs)) 10 0 →
        url_exists net (tile_url bu pi fc level k 0 vs) = true) ∧
      (hit_run (fun x => url_exists net (tile_url bu pi fc level x 0 vs)) 10 0 < 10 →
        url_exists net (tile_url bu pi fc level
          (hit_run (fun x => url_exists net (tile_url bu pi fc level x 0 vs)) 10 0) 0 vs) = false) ∧
      (url_exists net (tile_url bu pi fc level k 0 vs) = false →
        (detect_max_grid net bu pi fc vs level 10).1 < Int.ofNat k) ∧
      ((detect_max_grid net bu pi fc vs level 10).2 =
        if hit_run (fun y => url_exists net (tile_url bu pi fc level 0 y vs)) 10 0 = 0 then -1
        else Int.ofNat (hit_run (fun y => url_exists net (tile_url bu pi fc level 0 y vs)) 10 0 - 1)) ∧
      (k < hit_run (fun y => url_exists net (tile_url bu pi fc level 0 y vs)) 10 0 →
        url_exists net (tile_url bu pi fc level 0 k vs) = true) ∧
      (hit_run (fun y => url_exists net (tile_url bu pi fc level 0 y vs)) 10 0 < 10 →
        url_exists net (tile_url bu pi fc level 0
          (hit_run (fun y => url_exists net (tile_url bu pi fc level 0 y vs)) 10 0) vs) = false) ∧
      (url_exists net (tile_url bu pi fc level 0 k vs) = false →
        (detect_max_grid net bu pi fc vs level 10).2 < Int.ofNat k) := by
  have hx1 : (detect_max_grid net bu pi fc vs level 10).1 =
      detect_loop net (fun x => tile_url bu pi fc level x 0 vs) 10 0 (-1) := rfl
  have hy1 : (detect_max_grid net bu pi fc vs level 10).2 =
      detect_loop net (fun y => tile_url bu pi fc level 0 y vs) 10 0 (-1) := rfl
  have hcx := detect_loop_eq net (fun x => tile_url bu pi fc level x 0 vs) 10 0 (-1)
  have hcy := detect_loop_eq net (fun y => tile_url bu pi fc level 0 y vs) 10 0 (-1)
  simp only [Nat.zero_add] at hcx hcy
  refine ⟨hx1.trans hcx, ?_, ?_, ?_, hy1.trans hcy, ?_, ?_, ?_⟩
  · intro hk
    simpa using hit_run_hits (fun x => url_exists net (tile_url bu pi fc level x 0 vs)) 10 0 k hk
  · intro hlt
    simpa using hit_run_stop (fun x => url_exists net (tile_url bu pi fc level x 0 vs)) 10 0 hlt
  · intro hk
    have hb := hit_run_reach (fun x => url_exists net (tile_url bu pi fc level x 0 vs)) 10 0 k
      (Nat.zero_le k) hk
    rw [hx1, hcx]
    simp only [Int.ofNat_eq_natCast]
    by_cases hr : hit_run (fun x => url_exists net (tile_url bu pi fc level x 0 vs)) 10 0 = 0
    · rw [if_pos hr]; omega
    · rw [if_neg hr]; omega
  · intro hk
    simpa using hit_run_hits (fun y => url_exists net (tile_url bu pi fc level 0 y vs)) 10 0 k hk
  · intro hlt
    simpa using hit_run_stop (fun y => url_exists net (tile_url bu pi fc level 0 y vs)) 10 0 hlt
  · intro hk
    have hb := hit_run_reach (fun y => url_exists net (tile_url bu pi fc level 0 y vs)) 10 0 k
      (Nat.zero_le k) hk
    rw [hy1, hcy]
    simp only [Int.ofNat_eq_natCast]
    by_cases hr : hit_run (fun y => url_exists net (tile_url bu pi fc level 0 y vs)) 10 0 = 0
    · rw [if_pos hr]; omega
    · rw [if_neg hr]; omega

/-- Witness for C7 at a concrete input: the probe world hits x = 0, 1, 2 and
misses x = 3, so the probe reports maxX below 3 and the characterization
evaluates. -/
theorem C7_witness :
    url_exists net_w7 (tile_url base_w panoP face_f 0 3 0 vs0) = false ∧
      (detect_max_grid net_w7 base_w panoP face_f vs0 0 10).1 < Int.ofNat 3 ∧
      (detect_max_grid net_w7 base_w panoP face_f vs0 0 10).1 =
        (if hit_run (fun x => url_exists net_w7 (tile_url base_w panoP face_f 0 x 0 vs0)) 10 0 = 0
         then -1
         else Int.ofNat
           (hit_run (fun x => url_exists net_w7 (tile_url base_w panoP face_f 0 x 0 vs0)) 10 0 - 1)) :=
  ⟨rfl,
   (C7_probe_characterization net_w7 base_w panoP face_f vs0 0 3).2.2.2.1 rfl,
   (C7_probe_characterization net_w7 base_w panoP face_f vs0 0 3).1⟩

/-- The tile loop records exactly the traversed cells, in order. -/
theorem merge_loop_keys (net : Net) (bu pi fc vs cd : String) (level : Nat) :
    ∀ (cells : List (Nat × Nat)) (fs : FS) (rs : List ((Nat × Nat) × Option Img)),
      (merge_loop net bu pi fc vs cd level cells fs).1 = .ok rs →
      rs.map Prod.fst = cells := by
  intro cells
  induction cells with
  | nil =>
    intro fs rs h
    rw [merge_loop] at h
    rw [← Except.ok.inj h]
    rfl
  | cons cell rest ih =>
    intro fs rs h
    cases htr : (get_tile_with_fallback net bu pi fc vs cd level cell.1 cell.2 fs).1 with
    | error e =>
      rw [merge_loop] at h
      simp only [htr] at h
      exact absurd h (by simp)
    | ok t =>
      cases hmr : (merge_loop net bu pi fc vs cd level rest
          (get_tile_with_fallback net bu pi fc vs cd level cell.1 cell.2 fs).2).1 with
      | error e =>
        rw [merge_loop] at h
        simp only [htr, hmr] at h
        exact absurd h (by simp)
      | ok rs2 =>
        rw [merge_loop] at h
        simp only [htr, hmr] at h
        rw [← Except.ok.inj h]
        simp only [List.map_cons]
        rw [ih _ _ hmr]

/-- Every cell of the traversal grid is inside the probed extents. -/
theorem cell_list_mem {nx ny : Nat} {cell : Nat × Nat} (h : cell ∈ cell_list nx ny) :
    cell.1 < nx ∧ cell.2 < ny := by
  rw [cell_list, List.mem_flatMap] at h
  obtain ⟨x, hx, hm⟩ := h
  rw [List.mem_map] at hm
  obtain ⟨y, hy, hcy⟩ := hm
  rw [← hcy]
  exact ⟨List.mem_range.mp hx, List.mem_range.mp hy⟩

/-- Claim C8: whenever the probe reports maxX, maxY at least 0 and the face
assembles, the composite canvas dimensions are exactly
(maxX+1)*TILE_SIZE by (maxY+1)*TILE_SIZE, and the pastes of the canvas are
exactly the resolved tiles of the traversal, each cell (x, y) pasted at
canvas offset (y*TILE_SIZE, x*TILE_SIZE) - the axes deliberately swapped -
with every traversed cell inside the probed extents. -/
theorem C8_composite_geometry (net : Net) (bu pi fc vs sd : String) (level : Nat)
    (fs fs1 : FS) (path : String) (c : Canvas)
    (h : download_and_merge_face net bu pi fc vs sd level fs = (.ok (some path), fs1))
    (hc : fs1 path = some (.face c)) :
    (0 : Int) ≤ (detect_max_grid net bu pi fc vs level 10).1 ∧
      (0 : Int) ≤ (detect_max_grid net bu pi fc vs level 10).2 ∧
      c.width = ((detect_max_grid net bu pi fc vs level 10).1.toNat + 1) * TILE_SIZE ∧
      c.height = ((detect_max_grid net bu pi fc vs level 10).2.toNat + 1) * TILE_SIZE ∧
      ∃ rs,
        (merge_loop net bu pi fc vs (s!"{TEMP_DIR}/{pi}/{fc}") level
            (cell_list ((detect_max_grid net bu pi fc vs level 10).1.toNat + 1)
              ((detect_max_grid net bu pi fc vs level 10).2.toNat + 1)) fs).1 = .ok rs ∧
          c.pastes = rs.filterMap
            (fun cr => cr.2.map (fun img => (img, cr.1.2 * TILE_SIZE, cr.1.1 * TILE_SIZE))) ∧
          ∀ cr ∈ rs, cr.1.1 ≤ (detect_max_grid net bu pi fc vs level 10).1.toNat ∧
            cr.1.2 ≤ (detect_max_grid net bu pi fc vs level 10).2.toNat := by
  simp only [download_and_merge_face] at h
  by_cases hg : (detect_max_grid net bu pi fc vs level 10).1 < 0 ∨
      (detect_max_grid net bu pi fc vs level 10).2 < 0
  · rw [if_pos hg] at h
    exact absurd ((Prod.mk.injEq _ _ _ _).mp h).1 (by simp)
  · rw [if_neg hg] at h
    push_neg at hg
    cases hmr : (merge_loop net bu pi fc vs (s!"{TEMP_DIR}/{pi}/{fc}") level
        (cell_list ((detect_max_grid net bu pi fc vs level 10).1.toNat + 1)
          ((detect_max_grid net bu pi fc vs level 10).2.toNat + 1)) fs).1 with
    | error e =>
      simp only [hmr] at h
      exact absurd ((Prod.mk.injEq _ _ _ _).mp h).1 (by simp)
    | ok rs =>
      simp only [hmr] at h
      obtain ⟨h1, h2⟩ := (Prod.mk.injEq _ _ _ _).mp h
      have hpath : (s!"{sd}/{fc}.jpg" : String) = path := Option.some.inj (Except.ok.inj h1)
      subst hpath
      rw [← h2] at hc
      simp [write_file] at hc
      refine ⟨hg.1, hg.2, ?_, ?_, rs, rfl, ?_, ?_⟩
      · rw [← hc]
      · rw [← hc]
      · rw [← hc]
      · intro cr hcr
        have hk := merge_loop_keys net bu pi fc vs (s!"{TEMP_DIR}/{pi}/{fc}") level _ fs rs hmr
        have hmem : cr.1 ∈ cell_list ((detect_max_grid net bu pi fc vs level 10).1.toNat + 1)
            ((detect_max_grid net bu pi fc vs level 10).2.toNat + 1) := by
          rw [← hk]
          exact List.mem_map_of_mem Prod.fst hcr
        have hb := cell_list_mem hmem
        omega

/-- Witness for C8 at a concrete input: face f of panorama p2 in the
pipeline world assembles a 512 x 512 canvas from its 1 x 1 grid. -/
theorem C8_witness :
    (download_and_merge_face net_w1 base_w pano2 face_f vs0 ("panoramas/L/p2") 0 fs_empty).1 =
        .ok (some ("panoramas/L/p2/f.jpg")) ∧
      (0 : Int) ≤ (detect_max_grid net_w1 base_w pano2 face_f vs0 0 10).1 ∧
      (Canvas.mk 512 512 [(Img.decoded 1 512 512, (0 : Nat), (0 : Nat))]).width =
        ((detect_max_grid net_w1 base_w pano2 face_f vs0 0 10).1.toNat + 1) * TILE_SIZE ∧
      (Canvas.mk 512 512 [(Img.decoded 1 512 512, (0 : Nat), (0 : Nat))]).height =
        ((detect_max_grid net_w1 base_w pano2 face_f vs0 0 10).2.toNat + 1) * TILE_SIZE :=
  have happ := C8_composite_geometry net_w1 base_w pano2 face_f vs0 ("panoramas/L/p2") 0 fs_empty
    (download_and_merge_face net_w1 base_w pano2 face_f vs0 ("panoramas/L/p2") 0 fs_empty).2
    ("panoramas/L/p2/f.jpg") ⟨512, 512, [(Img.decoded 1 512 512, 0, 0)]⟩ rfl rfl
  ⟨rfl, happ.1, happ.2.2.1, happ.2.2.2.1⟩

/-- Image.open never produces a cropped or resized image: reconstruction
happens only in the fallback loop. -/
theorem open_file_direct (net : Net) (f : File) (img : Img)
    (h : open_file net f = some img) : img.isReconstructed = false := by
  cases f with
  | remote d =>
    obtain ⟨w, hh, hg, hi⟩ := open_remote_size net d img h
    rw [hi]
    rfl
  | face c =>
    rw [open_file] at h
    rw [← Option.some.inj h]
    rfl
  | equirect n =>
    rw [open_file] at h
    rw [← Option.some.inj h]
    rfl

/-- At level 0 a resolved tile is never a reconstruction: the fallback range
is empty, so the only non-absent outcome is the directly opened fetch. -/
theorem get_tile_level0_direct (net : Net) (bu pi fc vs cd : String) (x y : Nat) (fs : FS)
    (img : Img) (h : (get_tile_with_fallback net bu pi fc vs cd 0 x y fs).1 = .ok (some img)) :
    img.isReconstructed = false := by
  rw [get_tile_with_fallback] at h
  simp only [get_tile_fuel] at h
  by_cases hok : (fetch_tile net fs (tile_url bu pi fc 0 x y vs) (tile_path cd 0 x y)).ok = true
  · rw [if_pos hok] at h
    split at h
    · rename_i f hf
      split at h
      · rename_i i ho
        have hi : i = img := by simpa using h
        rw [← hi]
        exact open_file_direct net f i ho
      · simp at h
    · simp at h
  · rw [if_neg hok] at h
    rw [show fallback_list 0 = ([] : List Nat) from rfl, try_fallbacks] at h
    simp at h

/-- At level 0 every tile recorded as resolved by the tile loop is a direct,
non-reconstructed image. -/
theorem merge_loop_level0 (net : Net) (bu pi fc vs cd : String) :
    ∀ (cells : List (Nat × Nat)) (fs : FS) (rs : List ((Nat × Nat) × Option Img)),
      (merge_loop net bu pi fc vs cd 0 cells fs).1 = .ok rs →
      ∀ cell img, (cell, some img) ∈ rs → img.isReconstructed = false := by
  intro cells
  induction cells with
  | nil =>
    intro fs rs h cell img hm
    rw [merge_loop] at h
    rw [← Except.ok.inj h] at hm
    exact absurd hm (List.not_mem_nil _)
  | cons cell0 rest ih =>
    intro fs rs h cell img hm
    cases htr : (get_tile_with_fallback net bu pi fc vs cd 0 cell0.1 cell0.2 fs).1 with
    | error e =>
      rw [merge_loop] at h
      simp only [htr] at h
      exact absurd h (by simp)
    | ok t =>
      cases hmr : (merge_loop net bu pi fc vs cd 0 rest
          (get_tile_with_fallback net bu pi fc vs cd 0 cell0.1 cell0.2 fs).2).1 with
      | error e =>
        rw [merge_loop] at h
        simp only [htr, hmr] at h
        exact absurd h (by simp)
      | ok rs2 =>
        rw [merge_loop] at h
        simp only [htr, hmr] at h
        rw [← Except.ok.inj h] at hm
        rcases List.mem_cons.mp hm with heq | hm2
        · have ht : t = some img := ((Prod.mk.injEq _ _ _ _).mp heq.symm).2
          exact get_tile_level0_direct net bu pi fc vs cd cell0.1 cell0.2 fs img
            (by rw [htr, ht])
        · exact ih _ _ hmr cell img hm2

/-- Claim C6: the pipeline assembles every face at level 0 (process_pano and
face_fold invoke download_and_merge_face with level 0 by definition), and at
level 0 the fallback range range(level-1, -1, -1) is empty, so resolveTile
never falls back: its result is exactly the direct fetch outcome - the
opened level-0 file on fetch success, absent on fetch failure (the absent
cell is skipped by the paste loop, leaving an unpainted gap) - and
consequently every paste of a level-0 composite is a directly decoded tile,
never a cropped or resized reconstruction. -/
theorem C6_level0_no_fallback (net : Net) (bu pi fc vs cd sd : String) (x y : Nat)
    (fs fs2 : FS) (path : String) (c : Canvas) (pr : Img × Nat × Nat) :
    (get_tile_with_fallback net bu pi fc vs cd 0 x y fs =
        (if (fetch_tile net fs (tile_url bu pi fc 0 x y vs) (tile_path cd 0 x y)).ok then
          match (fetch_tile net fs (tile_url bu pi fc 0 x y vs) (tile_path cd 0 x y)).fs
              (tile_path cd 0 x y) with
          | some f =>
            (match open_file net f with
             | some img =>
               (.ok (some img),
                (fetch_tile net fs (tile_url bu pi fc 0 x y vs) (tile_path cd 0 x y)).fs)
             | none =>
               (.error (.unidentifiedImage (tile_path cd 0 x y)),
                (fetch_tile net fs (tile_url bu pi fc 0 x y vs) (tile_path cd 0 x y)).fs))
          | none =>
            (.error (.fileNotFound (tile_path cd 0 x y)),
             (fetch_tile net fs (tile_url bu pi fc 0 x y vs) (tile_path cd 0 x y)).fs)
        else
          (.ok none, (fetch_tile net fs (tile_url bu pi fc 0 x y vs) (tile_path cd 0 x y)).fs))) ∧
      (download_and_merge_face net bu pi fc vs sd 0 fs = (.ok (some path), fs2) →
        fs2 path = some (.face c) → pr ∈ c.pastes → pr.1.isReconstructed = false) := by
  constructor
  · rfl
  · intro h hc hpr
    simp only [download_and_merge_face] at h
    by_cases hg : (detect_max_grid net bu pi fc vs 0 10).1 < 0 ∨
        (detect_max_grid net bu pi fc vs 0 10).2 < 0
    · rw [if_pos hg] at h
      exact absurd ((Prod.mk.injEq _ _ _ _).mp h).1 (by simp)
    · rw [if_neg hg] at h
      cases hmr : (merge_loop net bu pi fc vs (s!"{TEMP_DIR}/{pi}/{fc}") 0
          (cell_list ((detect_max_grid net bu pi fc vs 0 10).1.toNat + 1)
            ((detect_max_grid net bu pi fc vs 0 10).2.toNat + 1)) fs).1 with
      | error e =>
        simp only [hmr] at h
        exact absurd ((Prod.mk.injEq _ _ _ _).mp h).1 (by simp)
      | ok rs =>
        simp only [hmr] at h
        obtain ⟨h1, h2⟩ := (Prod.mk.injEq _ _ _ _).mp h
        have hpath : (s!"{sd}/{fc}.jpg" : String) = path := Option.some.inj (Except.ok.inj h1)
        subst hpath
        rw [← h2] at hc
        simp [write_file] at hc
        rw [← hc] at hpr
        obtain ⟨cr, hcr, hg2⟩ := List.mem_filterMap.mp hpr
        obtain ⟨img, hcr2, hpr2⟩ := Option.map_eq_some'.mp hg2
        have hcrm : (cr.1, some img) ∈ rs := by
          rw [← hcr2]
          exact hcr
        rw [← hpr2]
        exact merge_loop_level0 net bu pi fc vs (s!"{TEMP_DIR}/{pi}/{fc}") _ fs rs hmr cr.1 img hcrm

/-- Witness for C6 at a concrete input: face f of panorama p2 assembles at
level 0 and its single paste is the directly decoded tile. -/
theorem C6_witness :
    (download_and_merge_face net_w1 base_w pano2 face_f vs0 ("panoramas/L/p2") 0 fs_empty).1 =
        .ok (some ("panoramas/L/p2/f.jpg")) ∧
      (Img.decoded 1 512 512, (0 : Nat), (0 : Nat)).1.isReconstructed = false :=
  ⟨rfl,
   (C6_level0_no_fallback net_w1 base_w pano2 face_f vs0 ("temp_tiles/p2/f") ("panoramas/L/p2")
       0 0 fs_empty
       (download_and_merge_face net_w1 base_w pano2 face_f vs0 ("panoramas/L/p2") 0 fs_empty).2
       ("panoramas/L/p2/f.jpg") ⟨512, 512, [(Img.decoded 1 512 512, 0, 0)]⟩
       (Img.decoded 1 512 512, 0, 0)).2 rfl rfl (by decide)⟩

/-- Claim C1 counterexample: in the pipeline world, panorama p1 fails at
projection time with a FileNotFoundError for its missing b face; the error
propagates out of the main loop, which stops, and panorama p2 is never
produced, even though processing p2 alone from the same state succeeds and
writes its equirectangular output: the run does NOT continue across the
remaining panoramas, refuting the claim. -/
theorem C1_counterexample :
    (main_run net_w1 [loc_w1] fs_empty).1 = .error (.fileNotFound ("panoramas/L/p1/b.jpg")) ∧
      (main_run net_w1 [loc_w1] fs_empty).2 ("panoramas/L/p2.jpg") = none ∧
      (process_pano net_w1 loc_w1 pano2 fs_empty).1 = .ok () ∧
      (process_pano net_w1 loc_w1 pano2 fs_empty).2 ("panoramas/L/p2.jpg") =
        some (.equirect 512) :=
  ⟨rfl, rfl, rfl, rfl⟩

/-- Claim C1 (amended): a missing face image at projection time raises
FileNotFoundError for that panorama, but the source main has no handler: the
error propagates out of the loop over panorama ids and locations, so the
whole run stops at the failing panorama with the filesystem as that panorama
left it; remaining panoramas and locations are not processed. -/
theorem C1_amended (net : Net) (nm bul ver p : String) (ps : List String)
    (rest : List Location) (fs : FS) (e : Err)
    (h : (process_pano net ⟨nm, bul, p :: ps, ver⟩ p fs).1 = .error e) :
    main_run net (⟨nm, bul, p :: ps, ver⟩ :: rest) fs =
      (.error e, (process_pano net ⟨nm, bul, p :: ps, ver⟩ p fs).2) := by
  rw [main_run]
  rw [show (Location.mk nm bul (p :: ps) ver).panoramas = p :: ps from rfl]
  rw [pano_fold]
  simp only [h]

/-- Witness for C1 at a concrete input: applying the amended theorem to the
pipeline world reproduces the aborted run. -/
theorem C1_witness :
    main_run net_w1 [⟨"L", base_w, pano1 :: [pano2], vs0⟩] fs_empty =
      (.error (.fileNotFound ("panoramas/L/p1/b.jpg")),
       (process_pano net_w1 ⟨"L", base_w, pano1 :: [pano2], vs0⟩ pano1 fs_empty).2) :=
  C1_amended net_w1 "L" base_w vs0 pano1 [pano2] [] fs_empty
    (.fileNotFound ("panoramas/L/p1/b.jpg")) rfl

/-- Claim C4 counterexample: after panorama p1 of the pipeline world is
processed (its projection raises), the cached level-0 tile of face f under
the shared temp-tile root and the assembled f face file under the pano
folder both survive: the purge is NOT unconditional - it is skipped when
the projection fails (and equally when no face assembled). -/
theorem C4_counterexample :
    (process_pano net_w1 loc_w1 pano1 fs_empty).2 ("temp_tiles/p1/f/0_0_0.jpg") =
        some (.remote 1) ∧
      str_under TEMP_DIR ("temp_tiles/p1/f/0_0_0.jpg") = true ∧
      ((process_pano net_w1 loc_w1 pano1 fs_empty).2 ("panoramas/L/p1/f.jpg")).isSome = true ∧
      str_under ("panoramas/L/p1") ("panoramas/L/p1/f.jpg") = true :=
  ⟨rfl, rfl, rfl, rfl⟩

/-- Claim C4 (amended): the cleanup of process_pano is conditional, not
unconditional: only when at least one face assembled (a nonzero face_size
was recorded) and the projection succeeded does the source purge the
per-panorama folder and the shared temp-tile root (then indeed every path
under either directory is removed, with delete failures swallowed);
otherwise - no face, or a projection error - no cleanup happens and the
tile cache and face files survive the panorama, as the counterexample
shows. -/
theorem C4_amended (net : Net) (loc : Location) (pid : String) (fs : FS) (p : String) (n : Nat)
    (hf : (face_fold net loc.baseUrl pid (build_version_suffix loc.version)
        (s!"{OUT_DIR}/{loc.name}/{pid}") FACES none fs).1 = .ok (some n))
    (hn : n ≠ 0)
    (hm : ∃ fs2, merge_to_equirect net
        (face_fold net loc.baseUrl pid (build_version_suffix loc.version)
          (s!"{OUT_DIR}/{loc.name}/{pid}") FACES none fs).2
        (s!"{OUT_DIR}/{loc.name}/{pid}") (s!"{OUT_DIR}/{loc.name}/{pid}.jpg") n = .ok fs2)
    (hp : str_under (s!"{OUT_DIR}/{loc.name}/{pid}") p = true ∨ str_under TEMP_DIR p = true) :
    (process_pano net loc pid fs).1 = .ok () ∧ (process_pano net loc pid fs).2 p = none := by
  obtain ⟨fs2, hm⟩ := hm
  have hpp : process_pano net loc pid fs =
      (.ok (), rmtree TEMP_DIR (rmtree (s!"{OUT_DIR}/{loc.name}/{pid}") fs2)) := by
    simp only [process_pano]
    rw [hf]
    rw [after_faces]
    simp only [Option.getD_some]
    rw [if_pos hn]
    rw [hm]
  refine ⟨by rw [hpp], ?_⟩
  rw [hpp]
  simp only [rmtree]
  rcases hp with h1 | h2
  · by_cases hT : str_under TEMP_DIR p = true
    · rw [if_pos hT]
    · rw [if_neg hT, if_pos h1]
  · rw [if_pos h2]

/-- Witness for C4 at a concrete input: panorama p2 of the pipeline world
assembles, projects, and is fully cleaned up: its cached tile under the
temp-tile root is gone after processing. -/
theorem C4_witness :
    (process_pano net_w1 loc_w1 pano2 fs_empty).1 = .ok () ∧
      (process_pano net_w1 loc_w1 pano2 fs_empty).2 ("temp_tiles/p2/f/0_0_0.jpg") = none :=
  C4_amended net_w1 loc_w1 pano2 fs_empty ("temp_tiles/p2/f/0_0_0.jpg") 512 rfl
    (by decide) ⟨_, rfl⟩ (Or.inr rfl)
